import Mathlib

/-!
The xctl package: the control client of a proxy server's administrative API

A shallow embedding of `xctl.go`.  Every method of `ServiceClient` is one unary
remote call followed by either a log line or an unwrapping of the response.  The
embedding makes the two effects of the Go code explicit:

* the remote side (the three service stubs and `grpc.Dial`) is a record of
  functions, `Remote`, giving the outcome of every request;
* what the process does is recorded, in order, in a trace of `Event`s: channels
  dialled, remote calls issued and log lines written.

A Go function becomes a function from the trace so far to its result and the new
trace (`Go α`); `log.Fatal`, which ends the process, is the result `Ctl.exit`, and
the dereference of a nil pointer is the result `Ctl.panic`.
-/

namespace xctl

/-! ## Values of the Go runtime -/

/-- A Go `error` value; only its message is observable (it is printed with `%v`). -/
structure GoError where
  msg : String
  deriving DecidableEq, Repr

/-- The `context.Context` handed to every call; the client only ever uses
`context.Background()`. -/
inductive Context where
  | Background
  deriving DecidableEq, Repr

/-- A Go `map[string]int64`: one entry per key, in no meaningful order.  The entries
are kept in a list that never holds a key twice (see `GoMap.assign`). -/
abbrev GoMap := List (String × Int)

namespace GoMap

/-- The Go expression `make(map[string]int64)`. -/
def make : GoMap := []

/-- The Go statement `m[k] = v`: overwrite the entry of `k` when there is one, add an
entry otherwise. -/
def assign : GoMap → String → Int → GoMap
  | [], k, v => [(k, v)]
  | (k', v') :: rest, k, v =>
    if k' = k then (k, v) :: rest else (k', v') :: assign rest k v

/-- The Go expression `v, ok := m[k]`. -/
def lookup : GoMap → String → Option Int
  | [], _ => none
  | (k', v') :: rest, k => if k' = k then some v' else lookup rest k

/-- The keys that `range m` visits. -/
def keys (m : GoMap) : List String := m.map Prod.fst

/-- The Go expression `len(m)`. -/
def len (m : GoMap) : Nat := m.length

end GoMap

/-! ## Messages of the external service definition -/

namespace statscmd

/-- Modelled from the spec: the generated message `Stat` is declared outside this
repository; a stat is a `(name: string, value: int64)` pair. -/
structure Stat where
  Name : String
  Value : Int
  deriving DecidableEq, Repr

/-- Modelled from the spec: the generated message `QueryStatsRequest` is declared
outside this repository; `QueryStats(pattern: string, reset: bool)`. -/
structure QueryStatsRequest where
  Pattern : String
  Reset_ : Bool
  deriving DecidableEq, Repr

/-- Modelled from the spec: the generated message `QueryStatsResponse` is declared
outside this repository; the response is a list of `(name, value)` pairs. -/
structure QueryStatsResponse where
  Stat : List Stat
  deriving DecidableEq, Repr

/-- Modelled from the spec: the generated message `GetStatsRequest` is declared
outside this repository; `GetStats(name: string, reset: bool)`. -/
structure GetStatsRequest where
  Name : String
  Reset_ : Bool
  deriving DecidableEq, Repr

/-- Modelled from the spec: the generated message `GetStatsResponse` is declared
outside this repository; the response carries one `(name, value)` pair.  The field is
a pointer (`*Stat`), which is nil (`none`) in a reply that carries no stat. -/
structure GetStatsResponse where
  Stat : Option Stat
  deriving DecidableEq, Repr

end statscmd

namespace protocol

/-- Modelled from the spec: the enumeration `SecurityType` is declared outside this
repository; `AUTO` is the automatic security-mode marker. -/
inductive SecurityType where
  | UNKNOWN
  | LEGACY
  | AUTO
  | AES128_GCM
  | CHACHA20_POLY1305
  | NONE
  deriving DecidableEq, Repr

/-- Modelled from the spec: the message `SecurityConfig` is declared outside this
repository; it holds the security mode. -/
structure SecurityConfig where
  Type_ : SecurityType
  deriving DecidableEq, Repr

end protocol

namespace serial

/-- Modelled from the spec: `serial.TypedMessage` is declared outside this
repository; it is the envelope in which a message travels inside another one, here
represented by the message it wraps. -/
structure TypedMessage (α : Type) where
  Message : α
  deriving DecidableEq, Repr

/-- Modelled from the spec: `serial.ToTypedMessage` is declared outside this
repository; it wraps a message in its envelope. -/
def ToTypedMessage {α : Type} (message : α) : TypedMessage α := ⟨message⟩

end serial

namespace vmess

/-- Modelled from the spec: the message `vmess.Account` is declared outside this
repository; the account payload is an identifier string, an auxiliary numeric
parameter (a `uint32`) and a security mode. -/
structure Account where
  Id : String
  AlterId : Nat
  SecuritySettings : protocol.SecurityConfig
  deriving DecidableEq, Repr

end vmess

namespace protocol

/-- Modelled from the spec: the message `protocol.User` is declared outside this
repository; a user record has a level (a `uint32`), an email and an account. -/
structure User where
  Level : Nat
  Email : String
  Account : serial.TypedMessage vmess.Account
  deriving DecidableEq, Repr

end protocol

namespace core

/-- Modelled from the spec: `core.InboundHandlerConfig` is declared outside this
repository; the client hands it on untouched, so only its tag is represented. -/
structure InboundHandlerConfig where
  Tag : String
  deriving DecidableEq, Repr

/-- Modelled from the spec: `core.OutboundHandlerConfig` is declared outside this
repository; the client hands it on untouched, so only its tag is represented. -/
structure OutboundHandlerConfig where
  Tag : String
  deriving DecidableEq, Repr

end core

namespace proxymancmd

/-- Modelled from the spec: the message `AddUserOperation` is declared outside this
repository; it carries the user record to add. -/
structure AddUserOperation where
  User : protocol.User
  deriving DecidableEq, Repr

/-- Modelled from the spec: the message `RemoveUserOperation` is declared outside
this repository; its only field is the email of the user to remove. -/
structure RemoveUserOperation where
  Email : String
  deriving DecidableEq, Repr

/-- Modelled from the spec: the operations an `AlterInbound` request can carry,
`{AddUser{level, email, account}, RemoveUser{email}}`. -/
inductive InboundOperation where
  | AddUser (op : AddUserOperation)
  | RemoveUser (op : RemoveUserOperation)
  deriving DecidableEq, Repr

/-- Modelled from the spec: the message `AlterInboundRequest` is declared outside
this repository; `AlterInbound(tag: string, operation)`. -/
structure AlterInboundRequest where
  Tag : String
  Operation : serial.TypedMessage InboundOperation
  deriving DecidableEq, Repr

/-- Modelled from the spec: the acknowledgement of `AlterInbound`, without content. -/
structure AlterInboundResponse where
  deriving DecidableEq, Repr

/-- Modelled from the spec: the request of `AddInbound`, a handler configuration. -/
structure AddInboundRequest where
  Inbound : core.InboundHandlerConfig
  deriving DecidableEq, Repr

/-- Modelled from the spec: the acknowledgement of `AddInbound`, without content. -/
structure AddInboundResponse where
  deriving DecidableEq, Repr

/-- Modelled from the spec: the request of `AddOutbound`, a handler configuration. -/
structure AddOutboundRequest where
  Outbound : core.OutboundHandlerConfig
  deriving DecidableEq, Repr

/-- Modelled from the spec: the acknowledgement of `AddOutbound`, without content. -/
structure AddOutboundResponse where
  deriving DecidableEq, Repr

/-- Modelled from the spec: the request of `RemoveInbound`, a handler tag. -/
structure RemoveInboundRequest where
  Tag : String
  deriving DecidableEq, Repr

/-- Modelled from the spec: the acknowledgement of `RemoveInbound`, without content. -/
structure RemoveInboundResponse where
  deriving DecidableEq, Repr

/-- Modelled from the spec: the request of `RemoveOutbound`, a handler tag. -/
structure RemoveOutboundRequest where
  Tag : String
  deriving DecidableEq, Repr

/-- Modelled from the spec: the acknowledgement of `RemoveOutbound`, without content. -/
structure RemoveOutboundResponse where
  deriving DecidableEq, Repr

end proxymancmd

namespace logcmd

/-- Modelled from the spec: the request of `RestartLogger`, without arguments. -/
structure RestartLoggerRequest where
  deriving DecidableEq, Repr

/-- Modelled from the spec: the acknowledgement of `RestartLogger`, without content. -/
structure RestartLoggerResponse where
  deriving DecidableEq, Repr

end logcmd

/-! ## The channel, the remote side and the trace of effects -/

namespace grpc

/-- The options `grpc.Dial` is given; the client passes `grpc.WithInsecure()` only. -/
inductive DialOption where
  | WithInsecure
  deriving DecidableEq, Repr

/-- A dialled channel (`*grpc.ClientConn`), known by its handle. -/
structure ClientConn where
  handle : Nat
  deriving DecidableEq, Repr

end grpc

namespace statscmd

/-- The stub returned by `statscmd.NewStatsServiceClient`: it talks over `cc`. -/
structure StatsServiceClient where
  cc : grpc.ClientConn
  deriving DecidableEq, Repr

/-- The constructor of the statistics stub. -/
def NewStatsServiceClient (cc : grpc.ClientConn) : StatsServiceClient := ⟨cc⟩

end statscmd

namespace proxymancmd

/-- The stub returned by `proxymancmd.NewHandlerServiceClient`: it talks over `cc`. -/
structure HandlerServiceClient where
  cc : grpc.ClientConn
  deriving DecidableEq, Repr

/-- The constructor of the handler stub. -/
def NewHandlerServiceClient (cc : grpc.ClientConn) : HandlerServiceClient := ⟨cc⟩

end proxymancmd

namespace logcmd

/-- The stub returned by `logcmd.NewLoggerServiceClient`: it talks over `cc`. -/
structure LoggerServiceClient where
  cc : grpc.ClientConn
  deriving DecidableEq, Repr

/-- The constructor of the logger stub. -/
def NewLoggerServiceClient (cc : grpc.ClientConn) : LoggerServiceClient := ⟨cc⟩

end logcmd

/-- One unary remote call: the endpoint, the context and the request sent. -/
inductive RemoteCall where
  | QueryStats (ctx : Context) (req : statscmd.QueryStatsRequest)
  | GetStats (ctx : Context) (req : statscmd.GetStatsRequest)
  | AlterInbound (ctx : Context) (req : proxymancmd.AlterInboundRequest)
  | AddInbound (ctx : Context) (req : proxymancmd.AddInboundRequest)
  | AddOutbound (ctx : Context) (req : proxymancmd.AddOutboundRequest)
  | RemoveInbound (ctx : Context) (req : proxymancmd.RemoveInboundRequest)
  | RemoveOutbound (ctx : Context) (req : proxymancmd.RemoveOutboundRequest)
  | RestartLogger (ctx : Context) (req : logcmd.RestartLoggerRequest)
  deriving DecidableEq, Repr

/-- The value a log line prints with `%v`: an error or a response. -/
inductive LogArg where
  | err (e : GoError)
  | AlterInboundResponse (r : proxymancmd.AlterInboundResponse)
  | AddInboundResponse (r : proxymancmd.AddInboundResponse)
  | AddOutboundResponse (r : proxymancmd.AddOutboundResponse)
  | RemoveInboundResponse (r : proxymancmd.RemoveInboundResponse)
  | RemoveOutboundResponse (r : proxymancmd.RemoveOutboundResponse)
  | RestartLoggerResponse (r : logcmd.RestartLoggerResponse)
  deriving DecidableEq, Repr

/-- One line written to the process-wide logger: `log.Printf(format, arg)` or the
`log.Print(arg)` that `log.Fatal` starts with. -/
inductive LogEntry where
  | Printf (format : String) (arg : LogArg)
  | Print (arg : LogArg)
  deriving DecidableEq, Repr

/-- What the process does that can be seen from outside, in order. -/
inductive Event where
  | dial (target : String) (opts : List grpc.DialOption)
  | call (cc : grpc.ClientConn) (rpc : RemoteCall)
  | log (entry : LogEntry)
  deriving DecidableEq, Repr

/-- The remote side: whether anything accepts connections at a target, what
`grpc.Dial` returns for a target, and the outcome of every request sent over a
channel.  A stub service of a test is one value of this type.

`grpc.Dial` is given no blocking option: it returns without waiting for the
connection, so `Dial` is a separate field from `Accepts`, and nothing in the client
reads `Accepts`. -/
structure Remote where
  Accepts : String → Bool
  Dial : String → List grpc.DialOption → Except GoError grpc.ClientConn
  QueryStats : grpc.ClientConn → Context → statscmd.QueryStatsRequest →
    Except GoError statscmd.QueryStatsResponse
  GetStats : grpc.ClientConn → Context → statscmd.GetStatsRequest →
    Except GoError statscmd.GetStatsResponse
  AlterInbound : grpc.ClientConn → Context → proxymancmd.AlterInboundRequest →
    Except GoError proxymancmd.AlterInboundResponse
  AddInbound : grpc.ClientConn → Context → proxymancmd.AddInboundRequest →
    Except GoError proxymancmd.AddInboundResponse
  AddOutbound : grpc.ClientConn → Context → proxymancmd.AddOutboundRequest →
    Except GoError proxymancmd.AddOutboundResponse
  RemoveInbound : grpc.ClientConn → Context → proxymancmd.RemoveInboundRequest →
    Except GoError proxymancmd.RemoveInboundResponse
  RemoveOutbound : grpc.ClientConn → Context → proxymancmd.RemoveOutboundRequest →
    Except GoError proxymancmd.RemoveOutboundResponse
  RestartLogger : grpc.ClientConn → Context → logcmd.RestartLoggerRequest →
    Except GoError logcmd.RestartLoggerResponse

/-- How a Go function ends: it returns a value, the process is ended with an exit
status (`os.Exit`), or a run-time panic unwinds it. -/
inductive Ctl (α : Type) where
  | ret (a : α)
  | exit (status : Nat)
  | panic
  deriving DecidableEq, Repr

/-- A Go function with effects: from the trace so far to how it ends and the trace
then. -/
def Go (α : Type) : Type := List Event → Ctl α × List Event

namespace Go

/-- Return a value without any effect. -/
def pure {α : Type} (a : α) : Go α := fun t => (Ctl.ret a, t)

/-- Run `x`, then `f` on its value; nothing runs after the process has exited or
after a panic. -/
def bind {α β : Type} (x : Go α) (f : α → Go β) : Go β := fun t =>
  match x t with
  | (Ctl.ret a, t') => f a t'
  | (Ctl.exit s, t') => (Ctl.exit s, t')
  | (Ctl.panic, t') => (Ctl.panic, t')

instance : Monad Go where
  pure := Go.pure
  bind := Go.bind

/-- Append one event to the trace. -/
def emit (e : Event) : Go Unit := fun t => (Ctl.ret (), t ++ [e])

/-- The Go call `os.Exit(status)`. -/
def osExit {α : Type} (status : Nat) : Go α := fun t => (Ctl.exit status, t)

/-- A run-time panic. -/
def panic {α : Type} : Go α := fun t => (Ctl.panic, t)

/-- The dereference of a pointer, as in the selector `p.f`: the value pointed at, or
a run-time panic (nil pointer dereference) when the pointer is nil. -/
def deref {α : Type} : Option α → Go α
  | some a => Go.pure a
  | none => Go.panic

end Go

namespace log

/-- The Go call `log.Printf(format, arg)`. -/
def Printf (format : String) (arg : LogArg) : Go Unit :=
  Go.emit (Event.log (LogEntry.Printf format arg))

/-- The Go call `log.Fatal(arg)`: `log.Print(arg)` followed by `os.Exit(1)`. -/
def Fatal {α : Type} (arg : LogArg) : Go α := do
  Go.emit (Event.log (LogEntry.Print arg))
  Go.osExit 1

end log

/-- The Go call `grpc.Dial(target, opts...)`. -/
def grpc.Dial (net : Remote) (target : String) (opts : List grpc.DialOption) :
    Go (Except GoError grpc.ClientConn) := do
  Go.emit (Event.dial target opts)
  return net.Dial target opts

/-- The stub method `StatsServiceClient.QueryStats`: one unary call over the stub's
channel. -/
def statscmd.StatsServiceClient.QueryStats (net : Remote) (c : statscmd.StatsServiceClient)
    (ctx : Context) (req : statscmd.QueryStatsRequest) :
    Go (Except GoError statscmd.QueryStatsResponse) := do
  Go.emit (Event.call c.cc (RemoteCall.QueryStats ctx req))
  return net.QueryStats c.cc ctx req

/-- The stub method `StatsServiceClient.GetStats`. -/
def statscmd.StatsServiceClient.GetStats (net : Remote) (c : statscmd.StatsServiceClient)
    (ctx : Context) (req : statscmd.GetStatsRequest) :
    Go (Except GoError statscmd.GetStatsResponse) := do
  Go.emit (Event.call c.cc (RemoteCall.GetStats ctx req))
  return net.GetStats c.cc ctx req

/-- The stub method `HandlerServiceClient.AlterInbound`. -/
def proxymancmd.HandlerServiceClient.AlterInbound (net : Remote)
    (c : proxymancmd.HandlerServiceClient) (ctx : Context)
    (req : proxymancmd.AlterInboundRequest) :
    Go (Except GoError proxymancmd.AlterInboundResponse) := do
  Go.emit (Event.call c.cc (RemoteCall.AlterInbound ctx req))
  return net.AlterInbound c.cc ctx req

/-- The stub method `HandlerServiceClient.AddInbound`. -/
def proxymancmd.HandlerServiceClient.AddInbound (net : Remote)
    (c : proxymancmd.HandlerServiceClient) (ctx : Context)
    (req : proxymancmd.AddInboundRequest) :
    Go (Except GoError proxymancmd.AddInboundResponse) := do
  Go.emit (Event.call c.cc (RemoteCall.AddInbound ctx req))
  return net.AddInbound c.cc ctx req

/-- The stub method `HandlerServiceClient.AddOutbound`. -/
def proxymancmd.HandlerServiceClient.AddOutbound (net : Remote)
    (c : proxymancmd.HandlerServiceClient) (ctx : Context)
    (req : proxymancmd.AddOutboundRequest) :
    Go (Except GoError proxymancmd.AddOutboundResponse) := do
  Go.emit (Event.call c.cc (RemoteCall.AddOutbound ctx req))
  return net.AddOutbound c.cc ctx req

/-- The stub method `HandlerServiceClient.RemoveInbound`. -/
def proxymancmd.HandlerServiceClient.RemoveInbound (net : Remote)
    (c : proxymancmd.HandlerServiceClient) (ctx : Context)
    (req : proxymancmd.RemoveInboundRequest) :
    Go (Except GoError proxymancmd.RemoveInboundResponse) := do
  Go.emit (Event.call c.cc (RemoteCall.RemoveInbound ctx req))
  return net.RemoveInbound c.cc ctx req

/-- The stub method `HandlerServiceClient.RemoveOutbound`. -/
def proxymancmd.HandlerServiceClient.RemoveOutbound (net : Remote)
    (c : proxymancmd.HandlerServiceClient) (ctx : Context)
    (req : proxymancmd.RemoveOutboundRequest) :
    Go (Except GoError proxymancmd.RemoveOutboundResponse) := do
  Go.emit (Event.call c.cc (RemoteCall.RemoveOutbound ctx req))
  return net.RemoveOutbound c.cc ctx req

/-- The stub method `LoggerServiceClient.RestartLogger`. -/
def logcmd.LoggerServiceClient.RestartLogger (net : Remote)
    (c : logcmd.LoggerServiceClient) (ctx : Context)
    (req : logcmd.RestartLoggerRequest) :
    Go (Except GoError logcmd.RestartLoggerResponse) := do
  Go.emit (Event.call c.cc (RemoteCall.RestartLogger ctx req))
  return net.RestartLogger c.cc ctx req

/-! ## The client -/

/-- The struct holding the rpc client: the target and the three service stubs.  The
port is a `uint32`. -/
structure ServiceClient where
  APIAddress : String
  APIPort : Nat
  statClient : statscmd.StatsServiceClient
  proxyClient : proxymancmd.HandlerServiceClient
  logClient : logcmd.LoggerServiceClient
  deriving DecidableEq, Repr

/-- The Go expression `fmt.Sprintf("%s:%d", addr, port)`. -/
def dialTarget (addr : String) (port : Nat) : String :=
  addr ++ ":" ++ toString port

/-- The Go function `NewServiceClient`: dial the target; on failure `log.Fatal`, on
success build the three stubs over the dialled channel. -/
def NewServiceClient (net : Remote) (addr : String) (port : Nat) : Go ServiceClient := do
  let r ← grpc.Dial net (dialTarget addr port) [grpc.DialOption.WithInsecure]
  match r with
  | Except.error err => log.Fatal (LogArg.err err)
  | Except.ok cmdConn =>
    let svr : ServiceClient :=
      { APIAddress := addr, APIPort := port,
        statClient := statscmd.NewStatsServiceClient cmdConn,
        proxyClient := proxymancmd.NewHandlerServiceClient cmdConn,
        logClient := logcmd.NewLoggerServiceClient cmdConn }
    return svr

namespace ServiceClient

/-- The Go method `QueryStats`: list all stats matching the pattern as a map. -/
def QueryStats (net : Remote) (h : ServiceClient) (pattern : String) (reset : Bool) :
    Go GoMap := do
  let r ← h.statClient.QueryStats net Context.Background
    { Pattern := pattern, Reset_ := reset }
  let result := GoMap.make
  match r with
  | Except.error err =>
    log.Printf "failed to call grpc command: %v" (LogArg.err err)
    return result
  | Except.ok sresp =>
    return sresp.Stat.foldl (fun result stat => result.assign stat.Name stat.Value) result

/-- The Go method `GetStats`: the stat of one named item.  On success the selectors
`sresp.Stat.Name` and `sresp.Stat.Value` dereference the pointer `sresp.Stat` without a
nil check. -/
def GetStats (net : Remote) (h : ServiceClient) (name : String) (reset : Bool) :
    Go (String × Int) := do
  let r ← h.statClient.GetStats net Context.Background
    { Name := name, Reset_ := reset }
  match r with
  | Except.error err =>
    log.Printf "%v" (LogArg.err err)
    return ("", 0)
  | Except.ok sresp =>
    let stat ← Go.deref sresp.Stat
    return (stat.Name, stat.Value)

/-- The Go method `AddUser`: add a user to an inbound. -/
def AddUser (net : Remote) (h : ServiceClient) (inboundTag : String) (email : String)
    (level : Nat) (uuid : String) (alterID : Nat) : Go Unit := do
  let r ← h.proxyClient.AlterInbound net Context.Background
    { Tag := inboundTag,
      Operation := serial.ToTypedMessage (proxymancmd.InboundOperation.AddUser
        { User :=
          { Level := level,
            Email := email,
            Account := serial.ToTypedMessage
              { Id := uuid,
                AlterId := alterID,
                SecuritySettings := { Type_ := protocol.SecurityType.AUTO } } } }) }
  match r with
  | Except.error err => log.Printf "%v" (LogArg.err err)
  | Except.ok resp => log.Printf "%v" (LogArg.AlterInboundResponse resp)

/-- The Go method `RemoveUser`: remove a user from an inbound. -/
def RemoveUser (net : Remote) (h : ServiceClient) (inboundTag : String) (email : String) :
    Go Unit := do
  let r ← h.proxyClient.AlterInbound net Context.Background
    { Tag := inboundTag,
      Operation := serial.ToTypedMessage (proxymancmd.InboundOperation.RemoveUser
        { Email := email }) }
  match r with
  | Except.error err => log.Printf "%v" (LogArg.err err)
  | Except.ok resp => log.Printf "%v" (LogArg.AlterInboundResponse resp)

/-- The Go method `RestartLogger`. -/
def RestartLogger (net : Remote) (h : ServiceClient) : Go Unit := do
  let r ← h.logClient.RestartLogger net Context.Background {}
  match r with
  | Except.error err => log.Printf "%v" (LogArg.err err)
  | Except.ok resp => log.Printf "%v" (LogArg.RestartLoggerResponse resp)

/-- The Go method `adi`: add an inbound handler. -/
def adi (net : Remote) (h : ServiceClient) (inb : core.InboundHandlerConfig) : Go Unit := do
  let r ← h.proxyClient.AddInbound net Context.Background { Inbound := inb }
  match r with
  | Except.error err => log.Printf "%v" (LogArg.err err)
  | Except.ok resp => log.Printf "%v" (LogArg.AddInboundResponse resp)

/-- The Go method `ado`: add an outbound handler. -/
def ado (net : Remote) (h : ServiceClient) (out : core.OutboundHandlerConfig) : Go Unit := do
  let r ← h.proxyClient.AddOutbound net Context.Background { Outbound := out }
  match r with
  | Except.error err => log.Printf "%v" (LogArg.err err)
  | Except.ok resp => log.Printf "%v" (LogArg.AddOutboundResponse resp)

/-- The Go method `rmi`: remove an inbound handler. -/
def rmi (net : Remote) (h : ServiceClient) (tag : String) : Go Unit := do
  let r ← h.proxyClient.RemoveInbound net Context.Background { Tag := tag }
  match r with
  | Except.error err => log.Printf "%v" (LogArg.err err)
  | Except.ok resp => log.Printf "%v" (LogArg.RemoveInboundResponse resp)

/-- The Go method `rmp`: remove an outbound handler. -/
def rmp (net : Remote) (h : ServiceClient) (tag : String) : Go Unit := do
  let r ← h.proxyClient.RemoveOutbound net Context.Background { Tag := tag }
  match r with
  | Except.error err => log.Printf "%v" (LogArg.err err)
  | Except.ok resp => log.Printf "%v" (LogArg.RemoveOutboundResponse resp)

end ServiceClient

/-! ## Reading a trace -/

/-- The remote calls of a trace, in order, each with the channel it went over. -/
def remoteCalls : List Event → List (grpc.ClientConn × RemoteCall)
  | [] => []
  | Event.call cc rpc :: rest => (cc, rpc) :: remoteCalls rest
  | _ :: rest => remoteCalls rest

/-- The log lines of a trace, in order. -/
def logEntries : List Event → List LogEntry
  | [] => []
  | Event.log entry :: rest => entry :: logEntries rest
  | _ :: rest => logEntries rest

/-- The targets dialled in a trace, in order. -/
def dialledTargets : List Event → List String
  | [] => []
  | Event.dial target _ :: rest => target :: dialledTargets rest
  | _ :: rest => dialledTargets rest

/-! ## Stubs for concrete runs -/

/-- A stub remote side answering every request the same way: the given outcomes for
dialling and the two statistics endpoints, and the one outcome `ack` (an error, or
success when `none`) for every mutation. -/
def stubRemote (dial : Except GoError grpc.ClientConn)
    (qs : Except GoError statscmd.QueryStatsResponse)
    (gs : Except GoError statscmd.GetStatsResponse)
    (ack : Option GoError) : Remote :=
  { Accepts := fun _ => true,
    Dial := fun _ _ => dial,
    QueryStats := fun _ _ _ => qs,
    GetStats := fun _ _ _ => gs,
    AlterInbound := fun _ _ _ => match ack with | some e => Except.error e | none => Except.ok {},
    AddInbound := fun _ _ _ => match ack with | some e => Except.error e | none => Except.ok {},
    AddOutbound := fun _ _ _ => match ack with | some e => Except.error e | none => Except.ok {},
    RemoveInbound := fun _ _ _ => match ack with | some e => Except.error e | none => Except.ok {},
    RemoveOutbound := fun _ _ _ => match ack with | some e => Except.error e | none => Except.ok {},
    RestartLogger := fun _ _ _ => match ack with | some e => Except.error e | none => Except.ok {} }

/-- A remote side with nothing listening: no target accepts connections, `grpc.Dial`
still returns a channel (it does not wait for the connection), and every request over
it fails. -/
def closedPortRemote : Remote :=
  { Accepts := fun _ => false,
    Dial := fun _ _ => Except.ok ⟨7⟩,
    QueryStats := fun _ _ _ => Except.error ⟨"connection refused"⟩,
    GetStats := fun _ _ _ => Except.error ⟨"connection refused"⟩,
    AlterInbound := fun _ _ _ => Except.error ⟨"connection refused"⟩,
    AddInbound := fun _ _ _ => Except.error ⟨"connection refused"⟩,
    AddOutbound := fun _ _ _ => Except.error ⟨"connection refused"⟩,
    RemoveInbound := fun _ _ _ => Except.error ⟨"connection refused"⟩,
    RemoveOutbound := fun _ _ _ => Except.error ⟨"connection refused"⟩,
    RestartLogger := fun _ _ _ => Except.error ⟨"connection refused"⟩ }

/-- A client over channel 7 of the loopback target of the example program. -/
def demoClient : ServiceClient :=
  { APIAddress := "127.0.0.1", APIPort := 10085,
    statClient := ⟨⟨7⟩⟩, proxyClient := ⟨⟨7⟩⟩, logClient := ⟨⟨7⟩⟩ }

/-- The response of the stub of the first testable property: `a` is 1, `b` is 2. -/
def abResponse : statscmd.QueryStatsResponse :=
  { Stat := [{ Name := "a", Value := 1 }, { Name := "b", Value := 2 }] }

/-- A response repeating a name: `a` is 1, `b` is 2, then `a` is 3. -/
def abaResponse : statscmd.QueryStatsResponse :=
  { Stat := [{ Name := "a", Value := 1 }, { Name := "b", Value := 2 },
             { Name := "a", Value := 3 }] }

/-! ## Lemmas on Go maps -/

namespace GoMap

theorem lookup_assign (m : GoMap) (k : String) (v : Int) (k' : String) :
    lookup (assign m k v) k' = if k = k' then some v else lookup m k' := by
  induction m with
  | nil => simp [assign, lookup]
  | cons p rest ih =>
    obtain ⟨a, b⟩ := p
    by_cases hak : a = k
    · subst hak
      by_cases hak' : a = k' <;> simp [assign, lookup, hak']
    · by_cases hak' : a = k'
      · subst hak'
        have hne : ¬ k = a := fun h => hak h.symm
        simp [assign, lookup, hak, hne]
      · simp [assign, lookup, hak, hak', ih]

theorem mem_keys_assign (m : GoMap) (k : String) (v : Int) (k' : String) :
    k' ∈ keys (assign m k v) ↔ k' = k ∨ k' ∈ keys m := by
  induction m with
  | nil => simp [assign, keys]
  | cons p rest ih =>
    obtain ⟨a, b⟩ := p
    by_cases hak : a = k
    · subst hak
      simp [assign, keys]
    · have ih' : k' ∈ List.map Prod.fst (assign rest k v) ↔
          k' = k ∨ k' ∈ List.map Prod.fst rest := ih
      simp only [assign, hak, if_false, keys, List.map_cons, List.mem_cons, ih']
      tauto

theorem nodup_keys_assign (m : GoMap) (k : String) (v : Int) (hm : (keys m).Nodup) :
    (keys (assign m k v)).Nodup := by
  induction m with
  | nil => simp [assign, keys]
  | cons p rest ih =>
    obtain ⟨a, b⟩ := p
    have hm' : a ∉ keys rest ∧ (keys rest).Nodup := by
      simpa [keys] using hm
    by_cases hak : a = k
    · subst hak
      simpa [assign, keys] using hm
    · have hnot : a ∉ keys (assign rest k v) := by
        rw [mem_keys_assign]
        rintro (h | h)
        · exact hak h
        · exact hm'.1 h
      have hrest := ih hm'.2
      simp only [assign, hak, if_false]
      exact List.nodup_cons.mpr ⟨hnot, hrest⟩

theorem lookup_eq_none_iff (m : GoMap) (k : String) : lookup m k = none ↔ k ∉ keys m := by
  induction m with
  | nil => simp [lookup, keys]
  | cons p rest ih =>
    obtain ⟨a, b⟩ := p
    have ih' : lookup rest k = none ↔ k ∉ List.map Prod.fst rest := ih
    by_cases hak : a = k
    · subst hak
      simp [lookup, keys]
    · have hne : ¬ k = a := fun h => hak h.symm
      simp only [lookup, hak, if_false, keys, List.map_cons, List.mem_cons, ih']
      tauto

end GoMap

/-- The keys after the loop of `QueryStats` over a stat list, started on the map `m`:
those of `m` and the names of the list. -/
theorem fold_mem_keys (stats : List statscmd.Stat) (m : GoMap) (k : String) :
    k ∈ GoMap.keys (stats.foldl (fun result stat => result.assign stat.Name stat.Value) m) ↔
      k ∈ GoMap.keys m ∨ k ∈ stats.map statscmd.Stat.Name := by
  induction stats generalizing m with
  | nil => simp
  | cons st rest ih =>
    simp only [List.foldl_cons, ih, GoMap.mem_keys_assign, List.map_cons, List.mem_cons]
    tauto

theorem fold_nodup_keys (stats : List statscmd.Stat) (m : GoMap) (hm : (GoMap.keys m).Nodup) :
    (GoMap.keys
      (stats.foldl (fun result stat => result.assign stat.Name stat.Value) m)).Nodup := by
  induction stats generalizing m with
  | nil => simpa using hm
  | cons st rest ih =>
    simp only [List.foldl_cons]
    exact ih _ (GoMap.nodup_keys_assign m st.Name st.Value hm)

theorem fold_lookup_of_not_mem (stats : List statscmd.Stat) (m : GoMap) (k : String)
    (hk : ∀ s ∈ stats, s.Name ≠ k) :
    GoMap.lookup (stats.foldl (fun result stat => result.assign stat.Name stat.Value) m) k =
      GoMap.lookup m k := by
  induction stats generalizing m with
  | nil => simp
  | cons st rest ih =>
    have h1 : st.Name ≠ k := hk st (List.mem_cons_self _ _)
    have h2 : ∀ s ∈ rest, s.Name ≠ k := fun s hs => hk s (List.mem_cons_of_mem _ hs)
    simp only [List.foldl_cons]
    rw [ih _ h2, GoMap.lookup_assign]
    simp [h1]

theorem fold_lookup_last (pre post : List statscmd.Stat) (st : statscmd.Stat) (m : GoMap)
    (hlast : ∀ s ∈ post, s.Name ≠ st.Name) :
    GoMap.lookup ((pre ++ st :: post).foldl
      (fun result stat => result.assign stat.Name stat.Value) m) st.Name = some st.Value := by
  rw [List.foldl_append, List.foldl_cons, fold_lookup_of_not_mem post _ st.Name hlast,
    GoMap.lookup_assign]
  simp

theorem fold_lookup_of_nodup (stats : List statscmd.Stat)
    (hd : (stats.map statscmd.Stat.Name).Nodup) (st : statscmd.Stat) (hst : st ∈ stats)
    (m : GoMap) :
    GoMap.lookup (stats.foldl (fun result stat => result.assign stat.Name stat.Value) m)
      st.Name = some st.Value := by
  obtain ⟨pre, post, rfl⟩ := List.append_of_mem hst
  apply fold_lookup_last
  intro s hs heq
  have hd' : ((pre.map statscmd.Stat.Name) ++
      st.Name :: post.map statscmd.Stat.Name).Nodup := by
    simpa using hd
  have hd2 := (List.nodup_append.mp hd').2.1
  have hnot : st.Name ∉ post.map statscmd.Stat.Name := (List.nodup_cons.mp hd2).1
  exact hnot (heq ▸ List.mem_map_of_mem statscmd.Stat.Name hs)

theorem fold_len (stats : List statscmd.Stat) :
    GoMap.len (stats.foldl (fun result stat => result.assign stat.Name stat.Value)
      GoMap.make) = (stats.map statscmd.Stat.Name).toFinset.card := by
  have hnd := fold_nodup_keys stats GoMap.make (by simp [GoMap.make, GoMap.keys])
  have hlen : GoMap.len (stats.foldl
      (fun result stat => result.assign stat.Name stat.Value) GoMap.make) =
      (GoMap.keys (stats.foldl
        (fun result stat => result.assign stat.Name stat.Value) GoMap.make)).length := by
    simp [GoMap.len, GoMap.keys]
  rw [hlen, ← List.toFinset_card_of_nodup hnd]
  congr 1
  ext k
  simp only [List.mem_toFinset, fold_mem_keys]
  simp [GoMap.make, GoMap.keys]

theorem names_card_le (stats : List statscmd.Stat) :
    (stats.map statscmd.Stat.Name).toFinset.card ≤ stats.length := by
  simpa using List.toFinset_card_le (stats.map statscmd.Stat.Name)

theorem names_card_eq_iff (stats : List statscmd.Stat) :
    (stats.map statscmd.Stat.Name).toFinset.card = stats.length ↔
      (stats.map statscmd.Stat.Name).Nodup := by
  constructor
  · intro h
    have h' : (stats.map statscmd.Stat.Name).dedup.length =
        (stats.map statscmd.Stat.Name).length := by
      simpa [List.card_toFinset] using h
    have hsub : (stats.map statscmd.Stat.Name).dedup.Sublist (stats.map statscmd.Stat.Name) :=
      List.dedup_sublist _
    have heq := hsub.eq_of_length h'
    rw [← heq]
    exact List.nodup_dedup _
  · intro h
    simpa using List.toFinset_card_of_nodup h

/-! ## Lemmas on traces -/

theorem remoteCalls_append (t u : List Event) :
    remoteCalls (t ++ u) = remoteCalls t ++ remoteCalls u := by
  induction t with
  | nil => rfl
  | cons e rest ih => cases e <;> simp [remoteCalls, ih]

theorem logEntries_append (t u : List Event) :
    logEntries (t ++ u) = logEntries t ++ logEntries u := by
  induction t with
  | nil => rfl
  | cons e rest ih => cases e <;> simp [logEntries, ih]

theorem dialledTargets_append (t u : List Event) :
    dialledTargets (t ++ u) = dialledTargets t ++ dialledTargets u := by
  induction t with
  | nil => rfl
  | cons e rest ih => cases e <;> simp [dialledTargets, ih]

/-! ## What one run of each method does -/

theorem QueryStats_ok (net : Remote) (h : ServiceClient) (pattern : String) (reset : Bool)
    (t : List Event) (sresp : statscmd.QueryStatsResponse)
    (hok : net.QueryStats h.statClient.cc Context.Background
      { Pattern := pattern, Reset_ := reset } = Except.ok sresp) :
    h.QueryStats net pattern reset t =
      (Ctl.ret (sresp.Stat.foldl (fun result stat => result.assign stat.Name stat.Value)
          GoMap.make),
        t ++ [Event.call h.statClient.cc (RemoteCall.QueryStats Context.Background
          { Pattern := pattern, Reset_ := reset })]) := by
  simp [ServiceClient.QueryStats, statscmd.StatsServiceClient.QueryStats, bind, Go.bind,
    Go.emit, pure, Go.pure, hok]

theorem QueryStats_error (net : Remote) (h : ServiceClient) (pattern : String) (reset : Bool)
    (t : List Event) (err : GoError)
    (herr : net.QueryStats h.statClient.cc Context.Background
      { Pattern := pattern, Reset_ := reset } = Except.error err) :
    h.QueryStats net pattern reset t =
      (Ctl.ret GoMap.make,
        t ++ [Event.call h.statClient.cc (RemoteCall.QueryStats Context.Background
            { Pattern := pattern, Reset_ := reset }),
          Event.log (LogEntry.Printf "failed to call grpc command: %v" (LogArg.err err))]) := by
  simp [ServiceClient.QueryStats, statscmd.StatsServiceClient.QueryStats, bind, Go.bind,
    Go.emit, pure, Go.pure, log.Printf, herr]

theorem GetStats_ok (net : Remote) (h : ServiceClient) (name : String) (reset : Bool)
    (t : List Event) (stat : statscmd.Stat)
    (hok : net.GetStats h.statClient.cc Context.Background
      { Name := name, Reset_ := reset } = Except.ok { Stat := some stat }) :
    h.GetStats net name reset t =
      (Ctl.ret (stat.Name, stat.Value),
        t ++ [Event.call h.statClient.cc (RemoteCall.GetStats Context.Background
          { Name := name, Reset_ := reset })]) := by
  simp [ServiceClient.GetStats, statscmd.StatsServiceClient.GetStats, bind, Go.bind,
    Go.emit, pure, Go.pure, Go.deref, hok]

theorem GetStats_nil (net : Remote) (h : ServiceClient) (name : String) (reset : Bool)
    (t : List Event)
    (hok : net.GetStats h.statClient.cc Context.Background
      { Name := name, Reset_ := reset } = Except.ok { Stat := none }) :
    h.GetStats net name reset t =
      (Ctl.panic,
        t ++ [Event.call h.statClient.cc (RemoteCall.GetStats Context.Background
          { Name := name, Reset_ := reset })]) := by
  simp [ServiceClient.GetStats, statscmd.StatsServiceClient.GetStats, bind, Go.bind,
    Go.emit, pure, Go.pure, Go.deref, Go.panic, hok]

theorem GetStats_error (net : Remote) (h : ServiceClient) (name : String) (reset : Bool)
    (t : List Event) (err : GoError)
    (herr : net.GetStats h.statClient.cc Context.Background
      { Name := name, Reset_ := reset } = Except.error err) :
    h.GetStats net name reset t =
      (Ctl.ret ("", 0),
        t ++ [Event.call h.statClient.cc (RemoteCall.GetStats Context.Background
            { Name := name, Reset_ := reset }),
          Event.log (LogEntry.Printf "%v" (LogArg.err err))]) := by
  simp [ServiceClient.GetStats, statscmd.StatsServiceClient.GetStats, bind, Go.bind,
    Go.emit, pure, Go.pure, log.Printf, herr]

/-! ## QueryStats and GetStats -/

/-- C1: when the stub answers `QueryStats` with a stat list whose names are pairwise
distinct, `QueryStats` returns a map whose keys are exactly the names of the list (each
once, so it has as many entries as the list) and which maps every name to the value
paired with it; the empty list gives the empty map. -/
theorem QueryStats_distinct_names (net : Remote) (h : ServiceClient) (pattern : String)
    (reset : Bool) (t : List Event) (sresp : statscmd.QueryStatsResponse)
    (hok : net.QueryStats h.statClient.cc Context.Background
      { Pattern := pattern, Reset_ := reset } = Except.ok sresp)
    (hdistinct : (sresp.Stat.map statscmd.Stat.Name).Nodup) :
    ∃ m : GoMap, (h.QueryStats net pattern reset t).1 = Ctl.ret m ∧
      (∀ k, k ∈ m.keys ↔ k ∈ sresp.Stat.map statscmd.Stat.Name) ∧
      m.keys.Nodup ∧
      (∀ st ∈ sresp.Stat, m.lookup st.Name = some st.Value) ∧
      (∀ k, k ∉ sresp.Stat.map statscmd.Stat.Name → m.lookup k = none) ∧
      m.len = sresp.Stat.length ∧
      (sresp.Stat = [] → m = GoMap.make) := by
  refine ⟨_, by rw [QueryStats_ok net h pattern reset t sresp hok], ?_, ?_, ?_, ?_, ?_, ?_⟩
  · intro k
    rw [fold_mem_keys]
    simp [GoMap.make, GoMap.keys]
  · exact fold_nodup_keys _ _ (by simp [GoMap.make, GoMap.keys])
  · intro st hst
    exact fold_lookup_of_nodup sresp.Stat hdistinct st hst GoMap.make
  · intro k hk
    rw [GoMap.lookup_eq_none_iff, fold_mem_keys]
    simpa [GoMap.make, GoMap.keys] using hk
  · rw [fold_len]
    exact (names_card_eq_iff sresp.Stat).mpr hdistinct
  · intro hnil
    rw [hnil]
    rfl

/-- The first testable property, run on a stub: `[("a",1),("b",2)]`, whose names are
distinct, gives a map with exactly the keys `a` and `b`, holding 1 and 2. -/
theorem QueryStats_distinct_names_witness :
    (abResponse.Stat.map statscmd.Stat.Name).Nodup ∧
    ∃ m : GoMap,
      (demoClient.QueryStats
        (stubRemote (Except.ok ⟨7⟩) (Except.ok abResponse) (Except.ok ⟨some ⟨"", 0⟩⟩) none)
        "rand" false []).1 = Ctl.ret m ∧
      (∀ k, k ∈ m.keys ↔ k ∈ abResponse.Stat.map statscmd.Stat.Name) ∧
      m.keys.Nodup ∧
      (∀ st ∈ abResponse.Stat, m.lookup st.Name = some st.Value) ∧
      (∀ k, k ∉ abResponse.Stat.map statscmd.Stat.Name → m.lookup k = none) ∧
      m.len = abResponse.Stat.length ∧
      (abResponse.Stat = [] → m = GoMap.make) :=
  ⟨by decide,
    QueryStats_distinct_names
      (stubRemote (Except.ok ⟨7⟩) (Except.ok abResponse) (Except.ok ⟨some ⟨"", 0⟩⟩) none)
      demoClient "rand" false [] abResponse rfl (by decide)⟩

/-- C2: when the stub answers `QueryStats` with an error, `QueryStats` returns normally
with the empty map, and writes exactly one log line, which carries that error. -/
theorem QueryStats_error_empty_map (net : Remote) (h : ServiceClient) (pattern : String)
    (reset : Bool) (t : List Event) (err : GoError)
    (herr : net.QueryStats h.statClient.cc Context.Background
      { Pattern := pattern, Reset_ := reset } = Except.error err) :
    (h.QueryStats net pattern reset t).1 = Ctl.ret GoMap.make ∧
      GoMap.len GoMap.make = 0 ∧
      logEntries (h.QueryStats net pattern reset t).2 =
        logEntries t ++ [LogEntry.Printf "failed to call grpc command: %v" (LogArg.err err)] := by
  rw [QueryStats_error net h pattern reset t err herr]
  refine ⟨rfl, rfl, ?_⟩
  rw [logEntries_append]
  rfl

/-- A failing stub, run: the empty map comes back and the one log line is the error. -/
theorem QueryStats_error_empty_map_witness :
    (demoClient.QueryStats
      (stubRemote (Except.ok ⟨7⟩) (Except.error ⟨"unavailable"⟩) (Except.ok ⟨some ⟨"", 0⟩⟩) none)
      "rand" false []).1 = Ctl.ret GoMap.make ∧
    GoMap.len GoMap.make = 0 ∧
    logEntries (demoClient.QueryStats
      (stubRemote (Except.ok ⟨7⟩) (Except.error ⟨"unavailable"⟩) (Except.ok ⟨some ⟨"", 0⟩⟩) none)
      "rand" false []).2 =
      logEntries [] ++
        [LogEntry.Printf "failed to call grpc command: %v" (LogArg.err ⟨"unavailable"⟩)] :=
  QueryStats_error_empty_map
    (stubRemote (Except.ok ⟨7⟩) (Except.error ⟨"unavailable"⟩) (Except.ok ⟨some ⟨"", 0⟩⟩) none)
    demoClient "rand" false [] ⟨"unavailable"⟩ rfl

/-- C3 (the code diverges on a reply without a stat): `GetStats` returns the name and
value of the stat of the response when the call succeeds with a stat, and the empty name
and zero when the stub answers with an error; but when the call succeeds with a reply
whose stat is nil, the unchecked dereference panics after the one remote call, and
nothing is returned or logged. -/
theorem GetStats_outcomes (net : Remote) (h : ServiceClient) (name : String) (reset : Bool)
    (t : List Event) :
    (∀ stat, net.GetStats h.statClient.cc Context.Background
        { Name := name, Reset_ := reset } = Except.ok { Stat := some stat } →
      (h.GetStats net name reset t).1 = Ctl.ret (stat.Name, stat.Value)) ∧
    (∀ err, net.GetStats h.statClient.cc Context.Background
        { Name := name, Reset_ := reset } = Except.error err →
      (h.GetStats net name reset t).1 = Ctl.ret ("", 0)) ∧
    (net.GetStats h.statClient.cc Context.Background
        { Name := name, Reset_ := reset } = Except.ok { Stat := none } →
      (h.GetStats net name reset t).1 = Ctl.panic ∧
      (∀ v, (h.GetStats net name reset t).1 ≠ Ctl.ret v) ∧
      logEntries (h.GetStats net name reset t).2 = logEntries t) := by
  refine ⟨?_, ?_, ?_⟩
  · intro stat hok
    rw [GetStats_ok net h name reset t stat hok]
  · intro err herr
    rw [GetStats_error net h name reset t err herr]
  · intro hnil
    rw [GetStats_nil net h name reset t hnil]
    refine ⟨rfl, ?_, ?_⟩
    · intro v hv
      cases hv
    · rw [logEntries_append]
      simp [logEntries]

/-- The third testable property, run on three stubs: `GetStats("x", true)` gives the
stub's stat on success, the empty name and zero on a stub error, and panics on a
successful reply without a stat. -/
theorem GetStats_outcomes_witness :
    (demoClient.GetStats
      (stubRemote (Except.ok ⟨7⟩) (Except.ok abResponse) (Except.ok ⟨some ⟨"x", 42⟩⟩) none)
      "x" true []).1 = Ctl.ret ("x", 42) ∧
    (demoClient.GetStats
      (stubRemote (Except.ok ⟨7⟩) (Except.ok abResponse) (Except.error ⟨"not found"⟩) none)
      "x" true []).1 = Ctl.ret ("", 0) ∧
    (demoClient.GetStats
      (stubRemote (Except.ok ⟨7⟩) (Except.ok abResponse) (Except.ok ⟨none⟩) none)
      "x" true []).1 = Ctl.panic :=
  ⟨(GetStats_outcomes
      (stubRemote (Except.ok ⟨7⟩) (Except.ok abResponse) (Except.ok ⟨some ⟨"x", 42⟩⟩) none)
      demoClient "x" true []).1 ⟨"x", 42⟩ rfl,
    (GetStats_outcomes
      (stubRemote (Except.ok ⟨7⟩) (Except.ok abResponse) (Except.error ⟨"not found"⟩) none)
      demoClient "x" true []).2.1 ⟨"not found"⟩ rfl,
    ((GetStats_outcomes
      (stubRemote (Except.ok ⟨7⟩) (Except.ok abResponse) (Except.ok ⟨none⟩) none)
      demoClient "x" true []).2.2 rfl).1⟩

/-- C4: whatever the stub answers, `QueryStats(s, r)` issues exactly one remote call, to
the `QueryStats` endpoint over the statistics stub's channel, with pattern `s` and reset
flag `r`; and `GetStats(s, r)` issues exactly one remote call, to the `GetStats`
endpoint, with name `s` and reset flag `r`. -/
theorem stats_calls_forward_arguments (net : Remote) (h : ServiceClient) (s : String)
    (r : Bool) (t : List Event) :
    remoteCalls (h.QueryStats net s r t).2 =
      remoteCalls t ++ [(h.statClient.cc,
        RemoteCall.QueryStats Context.Background { Pattern := s, Reset_ := r })] ∧
    remoteCalls (h.GetStats net s r t).2 =
      remoteCalls t ++ [(h.statClient.cc,
        RemoteCall.GetStats Context.Background { Name := s, Reset_ := r })] := by
  constructor
  · cases hout : net.QueryStats h.statClient.cc Context.Background
        { Pattern := s, Reset_ := r } with
    | error err =>
      rw [QueryStats_error net h s r t err hout, remoteCalls_append]
      rfl
    | ok sresp =>
      rw [QueryStats_ok net h s r t sresp hout, remoteCalls_append]
      rfl
  · cases hout : net.GetStats h.statClient.cc Context.Background
        { Name := s, Reset_ := r } with
    | error err =>
      rw [GetStats_error net h s r t err hout, remoteCalls_append]
      rfl
    | ok sresp =>
      obtain ⟨stat⟩ := sresp
      cases stat with
      | none =>
        rw [GetStats_nil net h s r t hout, remoteCalls_append]
        rfl
      | some st =>
        rw [GetStats_ok net h s r t st hout, remoteCalls_append]
        rfl

/-- C9: the value `QueryStats` returns when the stub fails is the value it returns
when the stub succeeds with the empty stat list, and the value `GetStats` returns when
the stub fails is the value it returns when the stub succeeds with the stat `("", 0)`;
so no test on the returned value tells whether the call failed. -/
theorem failure_indistinguishable_from_empty :
    (∀ (net₁ net₂ : Remote) (h : ServiceClient) (pattern : String) (reset : Bool)
        (t₁ t₂ : List Event) (err : GoError),
      net₁.QueryStats h.statClient.cc Context.Background
        { Pattern := pattern, Reset_ := reset } = Except.error err →
      net₂.QueryStats h.statClient.cc Context.Background
        { Pattern := pattern, Reset_ := reset } = Except.ok { Stat := [] } →
      (h.QueryStats net₁ pattern reset t₁).1 = (h.QueryStats net₂ pattern reset t₂).1) ∧
    (∀ (net₁ net₂ : Remote) (h : ServiceClient) (name : String) (reset : Bool)
        (t₁ t₂ : List Event) (err : GoError),
      net₁.GetStats h.statClient.cc Context.Background
        { Name := name, Reset_ := reset } = Except.error err →
      net₂.GetStats h.statClient.cc Context.Background
        { Name := name, Reset_ := reset } = Except.ok { Stat := some { Name := "", Value := 0 } } →
      (h.GetStats net₁ name reset t₁).1 = (h.GetStats net₂ name reset t₂).1) ∧
    (¬ ∃ failed : Ctl GoMap → Bool,
      ∀ (net : Remote) (h : ServiceClient) (pattern : String) (reset : Bool) (t : List Event),
        failed (h.QueryStats net pattern reset t).1 = true ↔
          ∃ err, net.QueryStats h.statClient.cc Context.Background
            { Pattern := pattern, Reset_ := reset } = Except.error err) ∧
    (¬ ∃ failed : Ctl (String × Int) → Bool,
      ∀ (net : Remote) (h : ServiceClient) (name : String) (reset : Bool) (t : List Event),
        failed (h.GetStats net name reset t).1 = true ↔
          ∃ err, net.GetStats h.statClient.cc Context.Background
            { Name := name, Reset_ := reset } = Except.error err) := by
  refine ⟨?_, ?_, ?_, ?_⟩
  · intro net₁ net₂ h pattern reset t₁ t₂ err herr hok
    rw [QueryStats_error net₁ h pattern reset t₁ err herr,
      QueryStats_ok net₂ h pattern reset t₂ _ hok]
    rfl
  · intro net₁ net₂ h name reset t₁ t₂ err herr hok
    rw [GetStats_error net₁ h name reset t₁ err herr,
      GetStats_ok net₂ h name reset t₂ _ hok]
  · rintro ⟨failed, hf⟩
    have h1 := hf (stubRemote (Except.ok ⟨7⟩) (Except.error ⟨"unavailable"⟩)
      (Except.ok ⟨some ⟨"", 0⟩⟩) none) demoClient "rand" false []
    have h2 := hf (stubRemote (Except.ok ⟨7⟩) (Except.ok { Stat := [] })
      (Except.ok ⟨some ⟨"", 0⟩⟩) none) demoClient "rand" false []
    rw [QueryStats_error _ demoClient "rand" false [] ⟨"unavailable"⟩ rfl] at h1
    rw [QueryStats_ok _ demoClient "rand" false [] { Stat := [] } rfl] at h2
    have hfail : failed (Ctl.ret GoMap.make) = true := h1.mpr ⟨_, rfl⟩
    obtain ⟨e, he⟩ := h2.mp hfail
    simp [stubRemote] at he
  · rintro ⟨failed, hf⟩
    have h1 := hf (stubRemote (Except.ok ⟨7⟩) (Except.ok abResponse)
      (Except.error ⟨"not found"⟩) none) demoClient "x" false []
    have h2 := hf (stubRemote (Except.ok ⟨7⟩) (Except.ok abResponse)
      (Except.ok ⟨some ⟨"", 0⟩⟩) none) demoClient "x" false []
    rw [GetStats_error _ demoClient "x" false [] ⟨"not found"⟩ rfl] at h1
    rw [GetStats_ok _ demoClient "x" false [] ⟨"", 0⟩ rfl] at h2
    have hfail : failed (Ctl.ret ("", 0)) = true := h1.mpr ⟨_, rfl⟩
    obtain ⟨e, he⟩ := h2.mp hfail
    simp [stubRemote] at he

/-- A failing stub and a stub with nothing to report, run side by side: both calls of
`QueryStats` return the same value, and so do both calls of `GetStats`. -/
theorem failure_indistinguishable_from_empty_witness :
    (demoClient.QueryStats
      (stubRemote (Except.ok ⟨7⟩) (Except.error ⟨"unavailable"⟩) (Except.error ⟨"gone"⟩) none)
      "rand" false []).1 =
    (demoClient.QueryStats
      (stubRemote (Except.ok ⟨7⟩) (Except.ok { Stat := [] }) (Except.ok ⟨some ⟨"", 0⟩⟩) none)
      "rand" false []).1 ∧
    (demoClient.GetStats
      (stubRemote (Except.ok ⟨7⟩) (Except.error ⟨"unavailable"⟩) (Except.error ⟨"gone"⟩) none)
      "x" true []).1 =
    (demoClient.GetStats
      (stubRemote (Except.ok ⟨7⟩) (Except.ok { Stat := [] }) (Except.ok ⟨some ⟨"", 0⟩⟩) none)
      "x" true []).1 :=
  ⟨failure_indistinguishable_from_empty.1
      (stubRemote (Except.ok ⟨7⟩) (Except.error ⟨"unavailable"⟩) (Except.error ⟨"gone"⟩) none)
      (stubRemote (Except.ok ⟨7⟩) (Except.ok { Stat := [] }) (Except.ok ⟨some ⟨"", 0⟩⟩) none)
      demoClient "rand" false [] [] ⟨"unavailable"⟩ rfl rfl,
    failure_indistinguishable_from_empty.2.1
      (stubRemote (Except.ok ⟨7⟩) (Except.error ⟨"unavailable"⟩) (Except.error ⟨"gone"⟩) none)
      (stubRemote (Except.ok ⟨7⟩) (Except.ok { Stat := [] }) (Except.ok ⟨some ⟨"", 0⟩⟩) none)
      demoClient "x" true [] [] ⟨"gone"⟩ rfl rfl⟩

/-- C10: for every successful response, repeated names included, the map `QueryStats`
returns has exactly the names of the list as keys, maps each name to the value of its
last occurrence in the list, and has at most as many entries as the list, with equality
exactly when the names are pairwise distinct. -/
theorem QueryStats_last_write_wins (net : Remote) (h : ServiceClient) (pattern : String)
    (reset : Bool) (t : List Event) (sresp : statscmd.QueryStatsResponse)
    (hok : net.QueryStats h.statClient.cc Context.Background
      { Pattern := pattern, Reset_ := reset } = Except.ok sresp) :
    ∃ m : GoMap, (h.QueryStats net pattern reset t).1 = Ctl.ret m ∧
      (∀ k, k ∈ m.keys ↔ k ∈ sresp.Stat.map statscmd.Stat.Name) ∧
      m.keys.Nodup ∧
      (∀ pre st post, sresp.Stat = pre ++ st :: post → (∀ s ∈ post, s.Name ≠ st.Name) →
        m.lookup st.Name = some st.Value) ∧
      (∀ k, k ∉ sresp.Stat.map statscmd.Stat.Name → m.lookup k = none) ∧
      m.len ≤ sresp.Stat.length ∧
      (m.len = sresp.Stat.length ↔ (sresp.Stat.map statscmd.Stat.Name).Nodup) := by
  refine ⟨_, by rw [QueryStats_ok net h pattern reset t sresp hok], ?_, ?_, ?_, ?_, ?_, ?_⟩
  · intro k
    rw [fold_mem_keys]
    simp [GoMap.make, GoMap.keys]
  · exact fold_nodup_keys _ _ (by simp [GoMap.make, GoMap.keys])
  · intro pre st post hsplit hlast
    rw [hsplit]
    exact fold_lookup_last pre post st GoMap.make hlast
  · intro k hk
    rw [GoMap.lookup_eq_none_iff, fold_mem_keys]
    simpa [GoMap.make, GoMap.keys] using hk
  · rw [fold_len]
    exact names_card_le sresp.Stat
  · rw [fold_len]
    exact names_card_eq_iff sresp.Stat

/-- A response repeating the name `a`, run on a stub: the map holds the later value 3
for `a` and has two entries for the three stats. -/
theorem QueryStats_last_write_wins_witness :
    ∃ m : GoMap,
      (demoClient.QueryStats
        (stubRemote (Except.ok ⟨7⟩) (Except.ok abaResponse) (Except.ok ⟨some ⟨"", 0⟩⟩) none)
        "rand" false []).1 = Ctl.ret m ∧
      m.lookup "a" = some 3 ∧ m.lookup "b" = some 2 ∧ m.len = 2 ∧
      m.len < abaResponse.Stat.length := by
  obtain ⟨m, hm, -, -, hlast, -, -, -⟩ := QueryStats_last_write_wins
    (stubRemote (Except.ok ⟨7⟩) (Except.ok abaResponse) (Except.ok ⟨some ⟨"", 0⟩⟩) none)
    demoClient "rand" false [] abaResponse rfl
  refine ⟨m, hm, ?_, ?_, ?_, ?_⟩
  · exact hlast [⟨"a", 1⟩, ⟨"b", 2⟩] ⟨"a", 3⟩ [] rfl (by simp)
  · exact hlast [⟨"a", 1⟩] ⟨"b", 2⟩ [⟨"a", 3⟩] rfl (by decide)
  · have hret : Ctl.ret m = Ctl.ret [("a", 3), ("b", 2)] := hm.symm.trans (by rfl)
    injection hret with hmeq
    rw [hmeq]
    rfl
  · have hret : Ctl.ret m = Ctl.ret [("a", 3), ("b", 2)] := hm.symm.trans (by rfl)
    injection hret with hmeq
    rw [hmeq]
    decide

/-! ## The mutation operations -/

theorem AddUser_run (net : Remote) (h : ServiceClient) (inboundTag email : String)
    (level : Nat) (uuid : String) (alterID : Nat) (t : List Event) :
    h.AddUser net inboundTag email level uuid alterID t =
      (Ctl.ret (),
        t ++ [Event.call h.proxyClient.cc (RemoteCall.AlterInbound Context.Background
            { Tag := inboundTag,
              Operation := ⟨proxymancmd.InboundOperation.AddUser
                ⟨⟨level, email, ⟨⟨uuid, alterID, ⟨protocol.SecurityType.AUTO⟩⟩⟩⟩⟩⟩ }),
          Event.log (LogEntry.Printf "%v"
            (match net.AlterInbound h.proxyClient.cc Context.Background
                { Tag := inboundTag,
                  Operation := ⟨proxymancmd.InboundOperation.AddUser
                    ⟨⟨level, email, ⟨⟨uuid, alterID, ⟨protocol.SecurityType.AUTO⟩⟩⟩⟩⟩⟩ } with
              | Except.error err => LogArg.err err
              | Except.ok resp => LogArg.AlterInboundResponse resp))]) := by
  simp only [ServiceClient.AddUser, proxymancmd.HandlerServiceClient.AlterInbound, bind,
    Go.bind, Go.emit, pure, Go.pure, log.Printf, serial.ToTypedMessage]
  cases net.AlterInbound h.proxyClient.cc Context.Background _ <;> simp [Go.emit]

theorem RemoveUser_run (net : Remote) (h : ServiceClient) (inboundTag email : String)
    (t : List Event) :
    h.RemoveUser net inboundTag email t =
      (Ctl.ret (),
        t ++ [Event.call h.proxyClient.cc (RemoteCall.AlterInbound Context.Background
            { Tag := inboundTag,
              Operation := ⟨proxymancmd.InboundOperation.RemoveUser ⟨email⟩⟩ }),
          Event.log (LogEntry.Printf "%v"
            (match net.AlterInbound h.proxyClient.cc Context.Background
                { Tag := inboundTag,
                  Operation := ⟨proxymancmd.InboundOperation.RemoveUser ⟨email⟩⟩ } with
              | Except.error err => LogArg.err err
              | Except.ok resp => LogArg.AlterInboundResponse resp))]) := by
  simp only [ServiceClient.RemoveUser, proxymancmd.HandlerServiceClient.AlterInbound, bind,
    Go.bind, Go.emit, pure, Go.pure, log.Printf, serial.ToTypedMessage]
  cases net.AlterInbound h.proxyClient.cc Context.Background _ <;> simp [Go.emit]

theorem RestartLogger_run (net : Remote) (h : ServiceClient) (t : List Event) :
    h.RestartLogger net t =
      (Ctl.ret (),
        t ++ [Event.call h.logClient.cc (RemoteCall.RestartLogger Context.Background {}),
          Event.log (LogEntry.Printf "%v"
            (match net.RestartLogger h.logClient.cc Context.Background {} with
              | Except.error err => LogArg.err err
              | Except.ok resp => LogArg.RestartLoggerResponse resp))]) := by
  simp only [ServiceClient.RestartLogger, logcmd.LoggerServiceClient.RestartLogger, bind,
    Go.bind, Go.emit, pure, Go.pure, log.Printf]
  cases net.RestartLogger h.logClient.cc Context.Background _ <;> simp [Go.emit]

theorem adi_run (net : Remote) (h : ServiceClient) (inb : core.InboundHandlerConfig)
    (t : List Event) :
    h.adi net inb t =
      (Ctl.ret (),
        t ++ [Event.call h.proxyClient.cc
            (RemoteCall.AddInbound Context.Background { Inbound := inb }),
          Event.log (LogEntry.Printf "%v"
            (match net.AddInbound h.proxyClient.cc Context.Background { Inbound := inb } with
              | Except.error err => LogArg.err err
              | Except.ok resp => LogArg.AddInboundResponse resp))]) := by
  simp only [ServiceClient.adi, proxymancmd.HandlerServiceClient.AddInbound, bind,
    Go.bind, Go.emit, pure, Go.pure, log.Printf]
  cases net.AddInbound h.proxyClient.cc Context.Background _ <;> simp [Go.emit]

theorem ado_run (net : Remote) (h : ServiceClient) (out : core.OutboundHandlerConfig)
    (t : List Event) :
    h.ado net out t =
      (Ctl.ret (),
        t ++ [Event.call h.proxyClient.cc
            (RemoteCall.AddOutbound Context.Background { Outbound := out }),
          Event.log (LogEntry.Printf "%v"
            (match net.AddOutbound h.proxyClient.cc Context.Background { Outbound := out } with
              | Except.error err => LogArg.err err
              | Except.ok resp => LogArg.AddOutboundResponse resp))]) := by
  simp only [ServiceClient.ado, proxymancmd.HandlerServiceClient.AddOutbound, bind,
    Go.bind, Go.emit, pure, Go.pure, log.Printf]
  cases net.AddOutbound h.proxyClient.cc Context.Background _ <;> simp [Go.emit]

theorem rmi_run (net : Remote) (h : ServiceClient) (tag : String) (t : List Event) :
    h.rmi net tag t =
      (Ctl.ret (),
        t ++ [Event.call h.proxyClient.cc
            (RemoteCall.RemoveInbound Context.Background { Tag := tag }),
          Event.log (LogEntry.Printf "%v"
            (match net.RemoveInbound h.proxyClient.cc Context.Background { Tag := tag } with
              | Except.error err => LogArg.err err
              | Except.ok resp => LogArg.RemoveInboundResponse resp))]) := by
  simp only [ServiceClient.rmi, proxymancmd.HandlerServiceClient.RemoveInbound, bind,
    Go.bind, Go.emit, pure, Go.pure, log.Printf]
  cases net.RemoveInbound h.proxyClient.cc Context.Background _ <;> simp [Go.emit]

theorem rmp_run (net : Remote) (h : ServiceClient) (tag : String) (t : List Event) :
    h.rmp net tag t =
      (Ctl.ret (),
        t ++ [Event.call h.proxyClient.cc
            (RemoteCall.RemoveOutbound Context.Background { Tag := tag }),
          Event.log (LogEntry.Printf "%v"
            (match net.RemoveOutbound h.proxyClient.cc Context.Background { Tag := tag } with
              | Except.error err => LogArg.err err
              | Except.ok resp => LogArg.RemoveOutboundResponse resp))]) := by
  simp only [ServiceClient.rmp, proxymancmd.HandlerServiceClient.RemoveOutbound, bind,
    Go.bind, Go.emit, pure, Go.pure, log.Printf]
  cases net.RemoveOutbound h.proxyClient.cc Context.Background _ <;> simp [Go.emit]

/-- C5: whatever the stub answers, `AddUser` issues exactly one remote call, an
`AlterInbound` request over the handler stub's channel, whose tag is `inboundTag` and
whose operation is "add user" with a user record of the given email and level and an
account of the given identifier and `alterID`, its security mode always `AUTO`. -/
theorem AddUser_request (net : Remote) (h : ServiceClient) (inboundTag email : String)
    (level : Nat) (uuid : String) (alterID : Nat) (t : List Event) :
    ∃ (req : proxymancmd.AlterInboundRequest) (op : proxymancmd.AddUserOperation),
      remoteCalls (h.AddUser net inboundTag email level uuid alterID t).2 =
        remoteCalls t ++
          [(h.proxyClient.cc, RemoteCall.AlterInbound Context.Background req)] ∧
      req.Tag = inboundTag ∧
      req.Operation = serial.ToTypedMessage (proxymancmd.InboundOperation.AddUser op) ∧
      op.User.Email = email ∧
      op.User.Level = level ∧
      op.User.Account.Message.Id = uuid ∧
      op.User.Account.Message.AlterId = alterID ∧
      op.User.Account.Message.SecuritySettings.Type_ = protocol.SecurityType.AUTO := by
  refine ⟨{ Tag := inboundTag,
            Operation := ⟨proxymancmd.InboundOperation.AddUser
              ⟨⟨level, email, ⟨⟨uuid, alterID, ⟨protocol.SecurityType.AUTO⟩⟩⟩⟩⟩⟩ },
    ⟨⟨level, email, ⟨⟨uuid, alterID, ⟨protocol.SecurityType.AUTO⟩⟩⟩⟩⟩,
    ?_, rfl, rfl, rfl, rfl, rfl, rfl, rfl⟩
  rw [AddUser_run, remoteCalls_append]
  rfl

/-- C6: whatever the stub answers, `RemoveUser` issues exactly one remote call, an
`AlterInbound` request over the handler stub's channel, whose tag is `inboundTag` and
whose operation is "remove user" holding the given email and nothing else. -/
theorem RemoveUser_request (net : Remote) (h : ServiceClient) (inboundTag email : String)
    (t : List Event) :
    ∃ req : proxymancmd.AlterInboundRequest,
      remoteCalls (h.RemoveUser net inboundTag email t).2 =
        remoteCalls t ++
          [(h.proxyClient.cc, RemoteCall.AlterInbound Context.Background req)] ∧
      req.Tag = inboundTag ∧
      req.Operation = serial.ToTypedMessage
        (proxymancmd.InboundOperation.RemoveUser { Email := email }) ∧
      (∀ op : proxymancmd.AddUserOperation,
        req.Operation.Message ≠ proxymancmd.InboundOperation.AddUser op) := by
  refine ⟨{ Tag := inboundTag,
            Operation := ⟨proxymancmd.InboundOperation.RemoveUser ⟨email⟩⟩ },
    ?_, rfl, rfl, ?_⟩
  · rw [RemoveUser_run, remoteCalls_append]
    rfl
  · intro op hop
    cases hop

/-- C7: every mutation operation (`AddUser`, `RemoveUser`, `RestartLogger`, `adi`,
`ado`, `rmi`, `rmp`), whatever the stub answers, returns normally with no result after
adding to the trace exactly one remote call followed by exactly one log line, which
prints the error when the call failed and the response otherwise. -/
theorem mutations_log_and_continue (net : Remote) (h : ServiceClient) (t : List Event) :
    (∀ (inboundTag email : String) (level : Nat) (uuid : String) (alterID : Nat),
      ∃ req, h.AddUser net inboundTag email level uuid alterID t =
        (Ctl.ret (),
          t ++ [Event.call h.proxyClient.cc (RemoteCall.AlterInbound Context.Background req),
            Event.log (LogEntry.Printf "%v"
              (match net.AlterInbound h.proxyClient.cc Context.Background req with
                | Except.error err => LogArg.err err
                | Except.ok resp => LogArg.AlterInboundResponse resp))])) ∧
    (∀ (inboundTag email : String),
      ∃ req, h.RemoveUser net inboundTag email t =
        (Ctl.ret (),
          t ++ [Event.call h.proxyClient.cc (RemoteCall.AlterInbound Context.Background req),
            Event.log (LogEntry.Printf "%v"
              (match net.AlterInbound h.proxyClient.cc Context.Background req with
                | Except.error err => LogArg.err err
                | Except.ok resp => LogArg.AlterInboundResponse resp))])) ∧
    (∃ req, h.RestartLogger net t =
        (Ctl.ret (),
          t ++ [Event.call h.logClient.cc (RemoteCall.RestartLogger Context.Background req),
            Event.log (LogEntry.Printf "%v"
              (match net.RestartLogger h.logClient.cc Context.Background req with
                | Except.error err => LogArg.err err
                | Except.ok resp => LogArg.RestartLoggerResponse resp))])) ∧
    (∀ inb : core.InboundHandlerConfig,
      h.adi net inb t =
        (Ctl.ret (),
          t ++ [Event.call h.proxyClient.cc
              (RemoteCall.AddInbound Context.Background { Inbound := inb }),
            Event.log (LogEntry.Printf "%v"
              (match net.AddInbound h.proxyClient.cc Context.Background { Inbound := inb } with
                | Except.error err => LogArg.err err
                | Except.ok resp => LogArg.AddInboundResponse resp))])) ∧
    (∀ out : core.OutboundHandlerConfig,
      h.ado net out t =
        (Ctl.ret (),
          t ++ [Event.call h.proxyClient.cc
              (RemoteCall.AddOutbound Context.Background { Outbound := out }),
            Event.log (LogEntry.Printf "%v"
              (match net.AddOutbound h.proxyClient.cc Context.Background
                  { Outbound := out } with
                | Except.error err => LogArg.err err
                | Except.ok resp => LogArg.AddOutboundResponse resp))])) ∧
    (∀ tag : String,
      h.rmi net tag t =
        (Ctl.ret (),
          t ++ [Event.call h.proxyClient.cc
              (RemoteCall.RemoveInbound Context.Background { Tag := tag }),
            Event.log (LogEntry.Printf "%v"
              (match net.RemoveInbound h.proxyClient.cc Context.Background { Tag := tag } with
                | Except.error err => LogArg.err err
                | Except.ok resp => LogArg.RemoveInboundResponse resp))])) ∧
    (∀ tag : String,
      h.rmp net tag t =
        (Ctl.ret (),
          t ++ [Event.call h.proxyClient.cc
              (RemoteCall.RemoveOutbound Context.Background { Tag := tag }),
            Event.log (LogEntry.Printf "%v"
              (match net.RemoveOutbound h.proxyClient.cc Context.Background { Tag := tag } with
                | Except.error err => LogArg.err err
                | Except.ok resp => LogArg.RemoveOutboundResponse resp))])) := by
  refine ⟨?_, ?_, ?_, ?_, ?_, ?_, ?_⟩
  · intro inboundTag email level uuid alterID
    exact ⟨_, AddUser_run net h inboundTag email level uuid alterID t⟩
  · intro inboundTag email
    exact ⟨_, RemoveUser_run net h inboundTag email t⟩
  · exact ⟨_, RestartLogger_run net h t⟩
  · exact fun inb => adi_run net h inb t
  · exact fun out => ado_run net h out t
  · exact fun tag => rmi_run net h tag t
  · exact fun tag => rmp_run net h tag t

/-! ## Construction -/

theorem NewServiceClient_ok (net : Remote) (addr : String) (port : Nat) (t : List Event)
    (cc : grpc.ClientConn)
    (hok : net.Dial (addr ++ ":" ++ Nat.repr port) [grpc.DialOption.WithInsecure] =
      Except.ok cc) :
    NewServiceClient net addr port t =
      (Ctl.ret (ServiceClient.mk addr port ⟨cc⟩ ⟨cc⟩ ⟨cc⟩),
        t ++ [Event.dial (addr ++ ":" ++ Nat.repr port) [grpc.DialOption.WithInsecure]]) := by
  have hok' : net.Dial (dialTarget addr port) [grpc.DialOption.WithInsecure] =
      Except.ok cc := hok
  simp [NewServiceClient, grpc.Dial, bind, Go.bind, Go.emit, pure, Go.pure, hok',
    statscmd.NewStatsServiceClient, proxymancmd.NewHandlerServiceClient,
    logcmd.NewLoggerServiceClient]
  rfl

theorem NewServiceClient_error (net : Remote) (addr : String) (port : Nat) (t : List Event)
    (err : GoError)
    (herr : net.Dial (addr ++ ":" ++ Nat.repr port) [grpc.DialOption.WithInsecure] =
      Except.error err) :
    NewServiceClient net addr port t =
      (Ctl.exit 1,
        t ++ [Event.dial (addr ++ ":" ++ Nat.repr port) [grpc.DialOption.WithInsecure],
          Event.log (LogEntry.Print (LogArg.err err))]) := by
  have herr' : net.Dial (dialTarget addr port) [grpc.DialOption.WithInsecure] =
      Except.error err := herr
  simp [NewServiceClient, grpc.Dial, bind, Go.bind, Go.emit, pure, Go.pure, herr',
    log.Fatal, Go.osExit]
  rfl

/-- C8 (as amended): `NewServiceClient` dials exactly one target, the address, a colon
and the port in decimal, and makes no remote call.  What follows depends only on what
`grpc.Dial` returns, not on whether anything accepts connections at the target: when
`Dial` reports an error, the error is logged and the process exits with status 1, so
that no client is returned; when it reports none, the returned client records that
address and port and its three stubs all talk over the dialled channel. -/
theorem NewServiceClient_dial_outcome (net : Remote) (addr : String) (port : Nat)
    (t : List Event) :
    dialledTargets (NewServiceClient net addr port t).2 =
      dialledTargets t ++ [addr ++ ":" ++ Nat.repr port] ∧
    remoteCalls (NewServiceClient net addr port t).2 = remoteCalls t ∧
    (∀ net' : Remote, net'.Dial = net.Dial →
      NewServiceClient net' addr port t = NewServiceClient net addr port t) ∧
    (∀ err, net.Dial (addr ++ ":" ++ Nat.repr port) [grpc.DialOption.WithInsecure] =
        Except.error err →
      (NewServiceClient net addr port t).1 = Ctl.exit 1 ∧
      (∀ svr, (NewServiceClient net addr port t).1 ≠ Ctl.ret svr) ∧
      logEntries (NewServiceClient net addr port t).2 =
        logEntries t ++ [LogEntry.Print (LogArg.err err)]) ∧
    (∀ cc, net.Dial (addr ++ ":" ++ Nat.repr port) [grpc.DialOption.WithInsecure] =
        Except.ok cc →
      ∃ svr, (NewServiceClient net addr port t).1 = Ctl.ret svr ∧
        svr.APIAddress = addr ∧ svr.APIPort = port ∧
        svr.statClient.cc = cc ∧ svr.proxyClient.cc = cc ∧ svr.logClient.cc = cc ∧
        logEntries (NewServiceClient net addr port t).2 = logEntries t) := by
  have hsame : ∀ net' : Remote, net'.Dial = net.Dial →
      NewServiceClient net' addr port t = NewServiceClient net addr port t := by
    intro net' hdial
    simp only [NewServiceClient, grpc.Dial, hdial]
  cases hout : net.Dial (addr ++ ":" ++ Nat.repr port) [grpc.DialOption.WithInsecure] with
  | error e =>
    refine ⟨?_, ?_, hsame, ?_, ?_⟩
    · rw [NewServiceClient_error net addr port t e hout, dialledTargets_append]
      rfl
    · rw [NewServiceClient_error net addr port t e hout, remoteCalls_append]
      simp [remoteCalls]
    · intro err herr
      cases herr
      rw [NewServiceClient_error net addr port t e hout]
      refine ⟨rfl, ?_, ?_⟩
      · intro svr hsvr
        cases hsvr
      · rw [logEntries_append]
        rfl
    · intro cc hcc
      cases hcc
  | ok c =>
    refine ⟨?_, ?_, hsame, ?_, ?_⟩
    · rw [NewServiceClient_ok net addr port t c hout, dialledTargets_append]
      rfl
    · rw [NewServiceClient_ok net addr port t c hout, remoteCalls_append]
      simp [remoteCalls]
    · intro err herr
      cases herr
    · intro cc hcc
      cases hcc
      rw [NewServiceClient_ok net addr port t c hout]
      refine ⟨_, rfl, rfl, rfl, rfl, rfl, rfl, ?_⟩
      rw [logEntries_append]
      simp [logEntries]

/-- The example program's target, dialled on a stub whose `Dial` reports an error and on
a remote side with nothing listening: `127.0.0.1:10085` is dialled; the error ends the
process, and with nothing listening a client over the dialled channel is returned. -/
theorem NewServiceClient_dial_outcome_witness :
    dialledTargets (NewServiceClient
      (stubRemote (Except.error ⟨"bad target"⟩) (Except.ok abResponse)
        (Except.ok ⟨some ⟨"", 0⟩⟩) none)
      "127.0.0.1" 10085 []).2 = ["127.0.0.1:10085"] ∧
    (NewServiceClient
      (stubRemote (Except.error ⟨"bad target"⟩) (Except.ok abResponse)
        (Except.ok ⟨some ⟨"", 0⟩⟩) none)
      "127.0.0.1" 10085 []).1 = Ctl.exit 1 ∧
    ∃ svr, (NewServiceClient closedPortRemote "127.0.0.1" 10085 []).1 = Ctl.ret svr ∧
      svr.APIAddress = "127.0.0.1" ∧ svr.APIPort = 10085 ∧
      svr.statClient.cc = ⟨7⟩ ∧ svr.proxyClient.cc = ⟨7⟩ ∧ svr.logClient.cc = ⟨7⟩ ∧
      logEntries (NewServiceClient closedPortRemote "127.0.0.1" 10085 []).2 =
        logEntries [] :=
  ⟨(NewServiceClient_dial_outcome
      (stubRemote (Except.error ⟨"bad target"⟩) (Except.ok abResponse)
        (Except.ok ⟨some ⟨"", 0⟩⟩) none)
      "127.0.0.1" 10085 []).1,
    ((NewServiceClient_dial_outcome
      (stubRemote (Except.error ⟨"bad target"⟩) (Except.ok abResponse)
        (Except.ok ⟨some ⟨"", 0⟩⟩) none)
      "127.0.0.1" 10085 []).2.2.2.1 ⟨"bad target"⟩ rfl).1,
    (NewServiceClient_dial_outcome closedPortRemote "127.0.0.1" 10085 []).2.2.2.2 ⟨7⟩ rfl⟩

/-- C8 (as stated, refuted): with nothing accepting connections at `127.0.0.1:10085`,
`NewServiceClient` does not end the process: it dials, logs nothing and returns a
client over the dialled channel, every call of which then fails and is only logged. -/
theorem NewServiceClient_closed_port_returns_client :
    closedPortRemote.Accepts "127.0.0.1:10085" = false ∧
    NewServiceClient closedPortRemote "127.0.0.1" 10085 [] =
      (Ctl.ret (ServiceClient.mk "127.0.0.1" 10085 ⟨⟨7⟩⟩ ⟨⟨7⟩⟩ ⟨⟨7⟩⟩),
        [Event.dial "127.0.0.1:10085" [grpc.DialOption.WithInsecure]]) ∧
    (ServiceClient.mk "127.0.0.1" 10085 ⟨⟨7⟩⟩ ⟨⟨7⟩⟩ ⟨⟨7⟩⟩).QueryStats closedPortRemote
        "rand" false [Event.dial "127.0.0.1:10085" [grpc.DialOption.WithInsecure]] =
      (Ctl.ret GoMap.make,
        [Event.dial "127.0.0.1:10085" [grpc.DialOption.WithInsecure],
          Event.call ⟨7⟩ (RemoteCall.QueryStats Context.Background
            { Pattern := "rand", Reset_ := false }),
          Event.log (LogEntry.Printf "failed to call grpc command: %v"
            (LogArg.err ⟨"connection refused"⟩))]) ∧
    ¬ (closedPortRemote.Accepts (dialTarget "127.0.0.1" 10085) = false →
        (NewServiceClient closedPortRemote "127.0.0.1" 10085 []).1 = Ctl.exit 1 ∧
        ∀ svr, (NewServiceClient closedPortRemote "127.0.0.1" 10085 []).1 ≠ Ctl.ret svr) := by
  refine ⟨rfl, by rfl, by rfl, ?_⟩
  intro hclaim
  have hexit := (hclaim rfl).1
  have hret : (NewServiceClient closedPortRemote "127.0.0.1" 10085 []).1 =
      Ctl.ret (ServiceClient.mk "127.0.0.1" 10085 ⟨⟨7⟩⟩ ⟨⟨7⟩⟩ ⟨⟨7⟩⟩) := by rfl
  rw [hret] at hexit
  cases hexit

end xctl
